import Mathlib

/-!
Verification of the SLIM local-global solver (`include/igl/slim.cpp`).

The numerically meaningful parts of the solver are shallowly embedded over ℝ.
External collaborators of the solver (the polar-SVD primitive, the gradient
operator builders, the per-face area routine and the sparse linear solver
backends) are taken as parameters, exactly as the specification scopes them
out; everything under `WeightedGlobalLocal` and `igl::slim_precompute` is
translated from the source.
-/

namespace SlimProof

/-! ## Definitions translated from the source -/

/-- The `SLIMData::SLIM_ENERGY` enumeration from `slim.h` / `slim.cpp`. -/
inductive SLIMEnergy where
  | ARAP
  | LOG_ARAP
  | SYMMETRIC_DIRICHLET
  | CONFORMAL
  | EXP_CONFORMAL
  | EXP_SYMMETRIC_DIRICHLET
deriving DecidableEq

/-- 2-D branch of `WeightedGlobalLocal::compute_energy_with_jacobians`
(`slim.cpp` lines 591-624): the contribution `areas(i) * (...)` of one element
with singular values `s1, s2`, as a function of the energy kind and of
`m_state.exp_factor`. -/
noncomputable def elemEnergy2D (k : SLIMEnergy) (exp_factor area s1 s2 : ℝ) : ℝ :=
  match k with
  | .ARAP => area * ((s1 - 1) ^ 2 + (s2 - 1) ^ 2)
  | .SYMMETRIC_DIRICHLET =>
      area * (s1 ^ 2 + (s1 ^ 2)⁻¹ + s2 ^ 2 + (s2 ^ 2)⁻¹)
  | .EXP_SYMMETRIC_DIRICHLET =>
      area * Real.exp (exp_factor * (s1 ^ 2 + (s1 ^ 2)⁻¹ + s2 ^ 2 + (s2 ^ 2)⁻¹))
  | .LOG_ARAP => area * ((Real.log s1) ^ 2 + (Real.log s2) ^ 2)
  | .CONFORMAL => area * ((s1 ^ 2 + s2 ^ 2) / (2 * s1 * s2))
  | .EXP_CONFORMAL =>
      area * Real.exp (exp_factor * ((s1 ^ 2 + s2 ^ 2) / (2 * s1 * s2)))

/-- 3-D branch of `WeightedGlobalLocal::compute_energy_with_jacobians`
(`slim.cpp` lines 652-685).  Note that, exactly as in the source, the
`EXP_CONFORMAL` case does not mention `exp_factor` (line 682), and the
`LOG_ARAP` case takes `abs` of `s2` and `s3` only (line 672). -/
noncomputable def elemEnergy3D (k : SLIMEnergy) (exp_factor area s1 s2 s3 : ℝ) : ℝ :=
  match k with
  | .ARAP => area * ((s1 - 1) ^ 2 + (s2 - 1) ^ 2 + (s3 - 1) ^ 2)
  | .SYMMETRIC_DIRICHLET =>
      area * (s1 ^ 2 + (s1 ^ 2)⁻¹ + s2 ^ 2 + (s2 ^ 2)⁻¹ + s3 ^ 2 + (s3 ^ 2)⁻¹)
  | .EXP_SYMMETRIC_DIRICHLET =>
      area * Real.exp (exp_factor *
        (s1 ^ 2 + (s1 ^ 2)⁻¹ + s2 ^ 2 + (s2 ^ 2)⁻¹ + s3 ^ 2 + (s3 ^ 2)⁻¹))
  | .LOG_ARAP =>
      area * ((Real.log s1) ^ 2 + (Real.log |s2|) ^ 2 + (Real.log |s3|) ^ 2)
  | .CONFORMAL =>
      area * ((s1 ^ 2 + s2 ^ 2 + s3 ^ 2) / (3 * (s1 * s2 * s3) ^ ((2 : ℝ) / 3)))
  | .EXP_CONFORMAL =>
      area * Real.exp ((s1 ^ 2 + s2 ^ 2 + s3 ^ 2) / (3 * (s1 * s2 * s3) ^ ((2 : ℝ) / 3)))

/-- The pre-guard reweighted singular values `m_sing_new` of the 2-D branch of
`WeightedGlobalLocal::update_weights_and_closest_rotations` (`slim.cpp`
lines 183-252), as a function of the energy kind, `exp_f = m_state.exp_factor`
and the singular values `s1, s2` returned by the external polar-SVD. -/
noncomputable def msingNewPre2D (k : SLIMEnergy) (exp_f s1 s2 : ℝ) : ℝ × ℝ :=
  match k with
  | .ARAP => (1, 1)
  | .SYMMETRIC_DIRICHLET =>
      (Real.sqrt ((2 * (s1 - (s1 ^ 3)⁻¹)) / (2 * (s1 - 1))),
       Real.sqrt ((2 * (s2 - (s2 ^ 3)⁻¹)) / (2 * (s2 - 1))))
  | .LOG_ARAP =>
      (Real.sqrt ((2 * (Real.log s1 / s1)) / (2 * (s1 - 1))),
       Real.sqrt ((2 * (Real.log s2 / s2)) / (2 * (s2 - 1))))
  | .CONFORMAL =>
      let s1_g := (2 * s2)⁻¹ - s2 / (2 * s1 ^ 2)
      let s2_g := (2 * s1)⁻¹ - s1 / (2 * s2 ^ 2)
      let geo_avg := Real.sqrt (s1 * s2)
      (Real.sqrt (s1_g / (2 * (s1 - geo_avg))),
       Real.sqrt (s2_g / (2 * (s2 - geo_avg))))
  | .EXP_CONFORMAL =>
      let in_exp := exp_f * ((s1 ^ 2 + s2 ^ 2) / (2 * s1 * s2))
      let exp_thing := Real.exp in_exp
      (Real.sqrt ((2 * (s1 - (s1 ^ 3)⁻¹) * (exp_thing * exp_f)) / (2 * (s1 - 1))),
       Real.sqrt ((2 * (s2 - (s2 ^ 3)⁻¹) * (exp_thing * exp_f)) / (2 * (s2 - 1))))
  | .EXP_SYMMETRIC_DIRICHLET =>
      let in_exp := exp_f * (s1 ^ 2 + (s1 ^ 2)⁻¹ + s2 ^ 2 + (s2 ^ 2)⁻¹)
      let exp_thing := Real.exp in_exp
      (Real.sqrt ((2 * (s1 - (s1 ^ 3)⁻¹) * (exp_thing * exp_f)) / (2 * (s1 - 1))),
       Real.sqrt ((2 * (s2 - (s2 ^ 3)⁻¹) * (exp_thing * exp_f)) / (2 * (s2 - 1))))

/-- The `|s_k - 1| < eps` clamp applied after the energy `switch`
(`slim.cpp` lines 254-255): the 2-D `m_sing_new` actually used to build
`mat_W`. -/
noncomputable def msingNew2D (k : SLIMEnergy) (exp_f s1 s2 : ℝ) : ℝ × ℝ :=
  let pre := msingNewPre2D k exp_f s1 s2
  (if |s1 - 1| < 1e-8 then 1 else pre.1,
   if |s2 - 1| < 1e-8 then 1 else pre.2)

/-- The pre-guard reweighted singular values of the 3-D branch of
`update_weights_and_closest_rotations` (`slim.cpp` lines 299-391).  For
`EXP_SYMMETRIC_DIRICHLET` the source assigns `m_sing_new` twice, the second
assignment (line 336) overwriting the first; only the final value is kept. -/
noncomputable def msingNewPre3D (k : SLIMEnergy) (exp_f s1 s2 s3 : ℝ) : ℝ × ℝ × ℝ :=
  match k with
  | .ARAP => (1, 1, 1)
  | .LOG_ARAP =>
      (Real.sqrt ((2 * (Real.log s1 / s1)) / (2 * (s1 - 1))),
       Real.sqrt ((2 * (Real.log s2 / s2)) / (2 * (s2 - 1))),
       Real.sqrt ((2 * (Real.log s3 / s3)) / (2 * (s3 - 1))))
  | .SYMMETRIC_DIRICHLET =>
      (Real.sqrt ((2 * (s1 - (s1 ^ 3)⁻¹)) / (2 * (s1 - 1))),
       Real.sqrt ((2 * (s2 - (s2 ^ 3)⁻¹)) / (2 * (s2 - 1))),
       Real.sqrt ((2 * (s3 - (s3 ^ 3)⁻¹)) / (2 * (s3 - 1))))
  | .EXP_SYMMETRIC_DIRICHLET =>
      let in_exp := exp_f *
        (s1 ^ 2 + (s1 ^ 2)⁻¹ + s2 ^ 2 + (s2 ^ 2)⁻¹ + s3 ^ 2 + (s3 ^ 2)⁻¹)
      let exp_thing := Real.exp in_exp
      (Real.sqrt ((2 * (s1 - (s1 ^ 3)⁻¹) * (exp_thing * exp_f)) / (2 * (s1 - 1))),
       Real.sqrt ((2 * (s2 - (s2 ^ 3)⁻¹) * (exp_thing * exp_f)) / (2 * (s2 - 1))),
       Real.sqrt ((2 * (s3 - (s3 ^ 3)⁻¹) * (exp_thing * exp_f)) / (2 * (s3 - 1))))
  | .CONFORMAL =>
      let common_div := 9 * ((s1 * s2 * s3) ^ ((5 : ℝ) / 3))
      let s1_g := (-2 * s2 * s3 * (s2 ^ 2 + s3 ^ 2 - 2 * s1 ^ 2)) / common_div
      let s2_g := (-2 * s1 * s3 * (s1 ^ 2 + s3 ^ 2 - 2 * s2 ^ 2)) / common_div
      let s3_g := (-2 * s1 * s2 * (s1 ^ 2 + s2 ^ 2 - 2 * s3 ^ 2)) / common_div
      let closest_s := Real.sqrt (s1 ^ 2 + s3 ^ 2) / Real.sqrt 2
      (Real.sqrt (s1_g / (2 * (s1 - closest_s))),
       Real.sqrt (s2_g / (2 * (s2 - closest_s))),
       Real.sqrt (s3_g / (2 * (s3 - closest_s))))
  | .EXP_CONFORMAL =>
      let common_div := 9 * ((s1 * s2 * s3) ^ ((5 : ℝ) / 3))
      let s1_g := (-2 * s2 * s3 * (s2 ^ 2 + s3 ^ 2 - 2 * s1 ^ 2)) / common_div
      let s2_g := (-2 * s1 * s3 * (s1 ^ 2 + s3 ^ 2 - 2 * s2 ^ 2)) / common_div
      let s3_g := (-2 * s1 * s2 * (s1 ^ 2 + s2 ^ 2 - 2 * s3 ^ 2)) / common_div
      let in_exp := exp_f *
        ((s1 ^ 2 + s2 ^ 2 + s3 ^ 2) / (3 * (s1 * s2 * s3) ^ ((2 : ℝ) / 3)))
      let exp_thing := Real.exp in_exp
      let closest_s := Real.sqrt (s1 ^ 2 + s3 ^ 2) / Real.sqrt 2
      (Real.sqrt ((s1_g * (exp_thing * exp_f)) / (2 * (s1 - closest_s))),
       Real.sqrt ((s2_g * (exp_thing * exp_f)) / (2 * (s2 - closest_s))),
       Real.sqrt ((s3_g * (exp_thing * exp_f)) / (2 * (s3 - closest_s))))

/-- The `|s_k - 1| < eps` clamp of the 3-D branch (`slim.cpp` lines 392-394). -/
noncomputable def msingNew3D (k : SLIMEnergy) (exp_f s1 s2 s3 : ℝ) : ℝ × ℝ × ℝ :=
  let pre := msingNewPre3D k exp_f s1 s2 s3
  (if |s1 - 1| < 1e-8 then 1 else pre.1,
   if |s2 - 1| < 1e-8 then 1 else pre.2.1,
   if |s3 - 1| < 1e-8 then 1 else pre.2.2)

/-- `mat_W = ui * m_sing_new.asDiagonal() * ui.transpose()` of the 2-D branch
(`slim.cpp` line 256), whose entries are stored into `W_11 .. W_22`. -/
noncomputable def localW2D (k : SLIMEnergy) (exp_f : ℝ)
    (ui : Matrix (Fin 2) (Fin 2) ℝ) (s1 s2 : ℝ) : Matrix (Fin 2) (Fin 2) ℝ :=
  ui * Matrix.diagonal ![(msingNew2D k exp_f s1 s2).1, (msingNew2D k exp_f s1 s2).2] *
    ui.transpose

/-- `mat_W = ui * m_sing_new.asDiagonal() * ui.transpose()` of the 3-D branch
(`slim.cpp` line 396), whose entries are stored into `W_11 .. W_33`. -/
noncomputable def localW3D (k : SLIMEnergy) (exp_f : ℝ)
    (ui : Matrix (Fin 3) (Fin 3) ℝ) (s1 s2 s3 : ℝ) : Matrix (Fin 3) (Fin 3) ℝ :=
  ui * Matrix.diagonal ![(msingNew3D k exp_f s1 s2 s3).1,
    (msingNew3D k exp_f s1 s2 s3).2.1, (msingNew3D k exp_f s1 s2 s3).2.2] *
    ui.transpose

/-- The local matrix `ri` stored into `m_state.Ri` by the 2-D branch: it is the
polar factor returned by the external SVD except in the `CONFORMAL` case, where
the source rebuilds it as `ui * closest_sing_vec.asDiagonal() * vi.transpose()`
with both entries of `closest_sing_vec` equal to `sqrt(s1*s2)`
(`slim.cpp` lines 209-217, 263-267).  No other 2-D case touches `ri`. -/
noncomputable def riNew2D (k : SLIMEnergy) (ri ui vi : Matrix (Fin 2) (Fin 2) ℝ)
    (s1 s2 : ℝ) : Matrix (Fin 2) (Fin 2) ℝ :=
  match k with
  | .CONFORMAL =>
      let geo_avg := Real.sqrt (s1 * s2)
      ui * Matrix.diagonal ![geo_avg, geo_avg] * vi.transpose
  | _ => ri

/-- The local matrix `ri` stored into `m_state.Ri` by the 3-D branch: rebuilt
from `closest_s = sqrt(s1^2+s3^2)/sqrt(2)` for both `CONFORMAL` and
`EXP_CONFORMAL` (`slim.cpp` lines 348-358, 375-389), kept otherwise. -/
noncomputable def riNew3D (k : SLIMEnergy) (ri ui vi : Matrix (Fin 3) (Fin 3) ℝ)
    (s1 s2 s3 : ℝ) : Matrix (Fin 3) (Fin 3) ℝ :=
  match k with
  | .CONFORMAL =>
      let closest_s := Real.sqrt (s1 ^ 2 + s3 ^ 2) / Real.sqrt 2
      ui * Matrix.diagonal ![closest_s, closest_s, closest_s] * vi.transpose
  | .EXP_CONFORMAL =>
      let closest_s := Real.sqrt (s1 ^ 2 + s3 ^ 2) / Real.sqrt 2
      ui * Matrix.diagonal ![closest_s, closest_s, closest_s] * vi.transpose
  | _ => ri

/-- The spec's description (§4.2) of the local matrix the 2-D `EXP_CONFORMAL`
branch is claimed to store: `R = U · diag(s_k_target) · Vᵗ` with both target
singular values collapsed to the geometric mean `sqrt(s1*s2)`.  Stated from the
spec's words, for comparison with `riNew2D`. -/
noncomputable def specRiExpConformal2D (ui vi : Matrix (Fin 2) (Fin 2) ℝ)
    (s1 s2 : ℝ) : Matrix (Fin 2) (Fin 2) ℝ :=
  ui * Matrix.diagonal ![Real.sqrt (s1 * s2), Real.sqrt (s1 * s2)] * vi.transpose

/-- One loop `for a in 0..n: f(key a) := u (f (key a)) (val a)`. -/
def innerWrite (u : ℝ → ℝ → ℝ) (n : ℕ) (key : ℕ → ℕ) (val : ℕ → ℝ)
    (f : ℕ → ℝ) : ℕ → ℝ :=
  (List.range n).foldl (fun g a => Function.update g (key a) (u (g (key a)) (val a))) f

/-- Two nested loops `for d in 0..m: for a in 0..n: f(key d a) := ...`. -/
def gridWrite (u : ℝ → ℝ → ℝ) (m n : ℕ) (key : ℕ → ℕ → ℕ) (val : ℕ → ℕ → ℝ)
    (f : ℕ → ℝ) : ℕ → ℝ :=
  (List.range m).foldl (fun g d => innerWrite u n (key d) (val d) g) f

/-- The flattened weight vector loop of `pre_calc` (`slim.cpp` lines 502-505):
`for i in 0..dim*dim: for j in 0..f_n: WGL_M(i*f_n + j) = M(j)`. -/
def wglMOf (dim f_n : ℕ) (M w0 : ℕ → ℝ) : ℕ → ℝ :=
  gridWrite (fun _ v => v) (dim * dim) f_n (fun i j => i * f_n + j)
    (fun _ j => M j) w0

/-- `L = At * WGL_M.asDiagonal() * A + proximal_p * id_m` of
`build_linear_system` (`slim.cpp` line 525), entrywise:
`(Aᵗ·diag(w)·A)(r,c) = Σ_k A(k,r)·w(k)·A(k,c)` plus `proximal_p` on the
diagonal. -/
def buildL (rows : ℕ) (A : ℕ → ℕ → ℝ) (wgl : ℕ → ℝ) (proximal_p : ℝ) :
    ℕ → ℕ → ℝ :=
  fun r c => (∑ kk ∈ Finset.range rows, A kk r * wgl kk * A kk c) +
    (if r = c then proximal_p else 0)

/-- The right-hand-side updates of `add_soft_constraints` (`slim.cpp`
line 542): `rhs(d*v_n + b(i)) += soft_const_p * bc(i,d)` over all `d < dim`,
`i < b.rows()`. -/
def addSoftRhs (dim v_n b_rows : ℕ) (b : ℕ → ℕ) (bc : ℕ → ℕ → ℝ)
    (soft_p : ℝ) (rhs : ℕ → ℝ) : ℕ → ℝ :=
  gridWrite (fun old v => old + v) dim b_rows (fun d i => d * v_n + b i)
    (fun d i => soft_p * bc i d) rhs

/-- One inner loop of the `L` updates of `add_soft_constraints` (`slim.cpp`
line 543): `L.coeffRef(key i, key i) += sp` for `i in 0..n`. -/
def innerDiag (n : ℕ) (key : ℕ → ℕ) (sp : ℝ) (L : ℕ → ℕ → ℝ) : ℕ → ℕ → ℝ :=
  (List.range n).foldl
    (fun g i => fun r c => if r = key i ∧ c = key i then g r c + sp else g r c) L

/-- The matrix updates of `add_soft_constraints` (`slim.cpp` lines 537-544). -/
def addSoftL (dim v_n b_rows : ℕ) (b : ℕ → ℕ) (soft_p : ℝ)
    (L : ℕ → ℕ → ℝ) : ℕ → ℕ → ℝ :=
  (List.range dim).foldl
    (fun g d => innerDiag b_rows (fun i => d * v_n + b i) soft_p g) L

/-- The warm-start vector built by the 3-D branch (`slim.cpp` line 443):
`for i in 0..dim: for j in 0..dim: guess(uv.rows()*i + j) = uv(i,j)`, starting
from an arbitrary (uninitialized in the source) base vector `g0`. -/
def cgGuess (rows dim : ℕ) (uv : ℕ → ℕ → ℝ) (g0 : ℕ → ℝ) : ℕ → ℝ :=
  gridWrite (fun _ v => v) dim dim (fun i j => rows * i + j) (fun i j => uv i j) g0

/-- The flattening convention used by the rest of the solver (`buildRhs`,
`slim.cpp` lines 860-863, and the unflattening at lines 449-450): entry
`v_n·i + j` of the flat vector holds `uv(j, i)`. -/
def flattenPositions (rows : ℕ) (uv : ℕ → ℕ → ℝ) : ℕ → ℝ :=
  fun kk => uv (kk % rows) (kk / rows)

/-- The two solver paths of `solve_weighted_arap`. -/
inductive SolveMethod where
  | direct : SolveMethod
  | cg : ℝ → (ℕ → ℝ) → SolveMethod

/-- The branch at `slim.cpp` lines 435-447: a direct `SimplicialLDLT`
factorization when `dim == 2`, otherwise a `ConjugateGradient` solve with
tolerance `1e-8` started from the guess vector. -/
noncomputable def chooseSolveMethod (dim rows : ℕ) (uv : ℕ → ℕ → ℝ)
    (g0 : ℕ → ℝ) : SolveMethod :=
  if dim = 2 then .direct else .cg 1e-8 (cgGuess rows dim uv g0)

/-- Concrete 4-vertex, 3-D candidate positions for exercising the warm start:
`uv(i,j) = i + 10·j`. -/
def uvC4 : ℕ → ℕ → ℝ := fun i j => (i : ℝ) + 10 * (j : ℝ)

def zeroIdx : ℕ → ℕ := fun _ => 0

def zeroFun : ℕ → ℝ := fun _ => 0

def oneFun : ℕ → ℝ := fun _ => 1

def zeroMat : ℕ → ℕ → ℝ := fun _ _ => 0

def oneMat2 : ℕ → ℕ → ℝ := fun _ _ => 1

/-- The fields of `igl::SLIMData` used by the embedded functions. -/
structure SLIMData where
  V : ℕ → ℕ → ℝ
  F : ℕ → ℕ → ℕ
  F_cols : ℕ
  V_o : ℕ → ℕ → ℝ
  v_num : ℕ
  f_num : ℕ
  slim_energy : SLIMEnergy
  b : ℕ → ℕ
  b_rows : ℕ
  bc : ℕ → ℕ → ℝ
  soft_const_p : ℝ
  proximal_p : ℝ
  exp_factor : ℝ
  mesh_improvement_3d : Bool
  M : ℕ → ℝ
  mesh_area : ℝ
  dim : ℕ
  v_n : ℕ
  f_n : ℕ
  Dx : ℕ → ℕ → ℝ
  Dy : ℕ → ℕ → ℝ
  Dz : ℕ → ℕ → ℝ
  Ji : ℕ → ℕ → ℝ
  Ri : ℕ → ℕ → ℝ
  W_11 : ℕ → ℝ
  W_12 : ℕ → ℝ
  W_13 : ℕ → ℝ
  W_21 : ℕ → ℝ
  W_22 : ℕ → ℝ
  W_23 : ℕ → ℝ
  W_31 : ℕ → ℝ
  W_32 : ℕ → ℝ
  W_33 : ℕ → ℝ
  WGL_M : ℕ → ℝ
  rhs : ℕ → ℝ
  energy : ℝ
  first_solve : Bool
  has_pre_calc : Bool

/-- Row `i` of a matrix-vector product: `(A·x)(i) = Σ_{j<n} A(i,j)·x(j)`. -/
def mvRow (A : ℕ → ℕ → ℝ) (n : ℕ) (x : ℕ → ℝ) (i : ℕ) : ℝ :=
  ∑ j ∈ Finset.range n, A i j * x j

/-- `WeightedGlobalLocal::compute_jacobians` (`slim.cpp` lines 127-149):
overwrites `m_state.Ji` with the per-element Jacobian entries
`[Dx·u, Dy·u, Dx·v, Dy·v]` (triangles) or the nine-column tet analog. -/
def computeJacobians (s : SLIMData) (uv : ℕ → ℕ → ℝ) : SLIMData :=
  if s.F_cols = 3 then
    { s with Ji := fun i c =>
        if c = 0 then mvRow s.Dx s.v_n (fun j => uv j 0) i
        else if c = 1 then mvRow s.Dy s.v_n (fun j => uv j 0) i
        else if c = 2 then mvRow s.Dx s.v_n (fun j => uv j 1) i
        else if c = 3 then mvRow s.Dy s.v_n (fun j => uv j 1) i
        else s.Ji i c }
  else
    { s with Ji := fun i c =>
        if c = 0 then mvRow s.Dx s.v_n (fun j => uv j 0) i
        else if c = 1 then mvRow s.Dy s.v_n (fun j => uv j 0) i
        else if c = 2 then mvRow s.Dz s.v_n (fun j => uv j 0) i
        else if c = 3 then mvRow s.Dx s.v_n (fun j => uv j 1) i
        else if c = 4 then mvRow s.Dy s.v_n (fun j => uv j 1) i
        else if c = 5 then mvRow s.Dz s.v_n (fun j => uv j 1) i
        else if c = 6 then mvRow s.Dx s.v_n (fun j => uv j 2) i
        else if c = 7 then mvRow s.Dy s.v_n (fun j => uv j 2) i
        else if c = 8 then mvRow s.Dz s.v_n (fun j => uv j 2) i
        else s.Ji i c }

/-- `WeightedGlobalLocal::compute_energy_with_jacobians` (`slim.cpp`
lines 567-690), reading the stored `Ji` rows, extracting singular values with
the external SVD and summing the per-element energies weighted by `areas = M`.
`sing2`/`sing3` take the row-major entries of `ji` and return its singular
values. -/
noncomputable def computeEnergyWithJacobians
    (sing2 : ℝ → ℝ → ℝ → ℝ → ℝ × ℝ)
    (sing3 : ℝ → ℝ → ℝ → ℝ → ℝ → ℝ → ℝ → ℝ → ℝ → ℝ × ℝ × ℝ)
    (s : SLIMData) : ℝ :=
  if s.dim = 2 then
    ∑ i ∈ Finset.range s.f_n,
      (fun p : ℝ × ℝ =>
        elemEnergy2D s.slim_energy s.exp_factor (s.M i) p.1 p.2)
        (sing2 (s.Ji i 0) (s.Ji i 1) (s.Ji i 2) (s.Ji i 3))
  else
    ∑ i ∈ Finset.range s.f_n,
      (fun t : ℝ × ℝ × ℝ =>
        elemEnergy3D s.slim_energy s.exp_factor (s.M i) t.1 t.2.1 t.2.2)
        (sing3 (s.Ji i 0) (s.Ji i 1) (s.Ji i 2) (s.Ji i 3) (s.Ji i 4)
          (s.Ji i 5) (s.Ji i 6) (s.Ji i 7) (s.Ji i 8))

/-- `WeightedGlobalLocal::compute_soft_const_energy` (`slim.cpp`
lines 555-565). -/
def computeSoftConstEnergy (s : SLIMData) (uv : ℕ → ℕ → ℝ) : ℝ :=
  ∑ i ∈ Finset.range s.b_rows,
    s.soft_const_p * (∑ dd ∈ Finset.range s.dim, (s.bc i dd - uv (s.b i) dd) ^ 2)

/-- `WeightedGlobalLocal::compute_energy` (`slim.cpp` lines 548-553): first
runs `compute_jacobians` (which writes `m_state.Ji`), then returns the
Jacobian energy plus the soft-constraint energy.  The pair is (returned value,
state after the call). -/
noncomputable def computeEnergy (sing2 : ℝ → ℝ → ℝ → ℝ → ℝ × ℝ)
    (sing3 : ℝ → ℝ → ℝ → ℝ → ℝ → ℝ → ℝ → ℝ → ℝ → ℝ × ℝ × ℝ)
    (s : SLIMData) (uv : ℕ → ℕ → ℝ) : ℝ × SLIMData :=
  let s1 := computeJacobians s uv
  (computeEnergyWithJacobians sing2 sing3 s1 + computeSoftConstEnergy s1 uv, s1)

/-- C5 counterexample data: one triangle, one vertex, `Dx ≡ 1`, `Ji ≡ 0`. -/
def dataC5 : SLIMData where
  V := fun _ _ => 0
  F := fun _ _ => 0
  F_cols := 3
  V_o := fun _ _ => 0
  v_num := 1
  f_num := 1
  slim_energy := .ARAP
  b := fun _ => 0
  b_rows := 0
  bc := fun _ _ => 0
  soft_const_p := 0
  proximal_p := 0
  exp_factor := 1
  mesh_improvement_3d := false
  M := fun _ => 1
  mesh_area := 1
  dim := 2
  v_n := 1
  f_n := 1
  Dx := fun _ _ => 1
  Dy := fun _ _ => 0
  Dz := fun _ _ => 0
  Ji := fun _ _ => 0
  Ri := fun _ _ => 0
  W_11 := fun _ => 0
  W_12 := fun _ => 0
  W_13 := fun _ => 0
  W_21 := fun _ => 0
  W_22 := fun _ => 0
  W_23 := fun _ => 0
  W_31 := fun _ => 0
  W_32 := fun _ => 0
  W_33 := fun _ => 0
  WGL_M := fun _ => 0
  rhs := fun _ => 0
  energy := 0
  first_solve := true
  has_pre_calc := true

/-- A trivial external SVD returning singular values (1,1). -/
def sing2C5 : ℝ → ℝ → ℝ → ℝ → ℝ × ℝ := fun _ _ _ _ => (1, 1)

/-- A trivial external 3-D SVD returning singular values (1,1,1). -/
def sing3C5 : ℝ → ℝ → ℝ → ℝ → ℝ → ℝ → ℝ → ℝ → ℝ → ℝ × ℝ × ℝ :=
  fun _ _ _ _ _ _ _ _ _ => (1, 1, 1)

/-- Constant candidate positions 1. -/
def uvC5 : ℕ → ℕ → ℝ := fun _ _ => 1

/-- The field assignments of `slim_precompute` executed before the element
arity assertion (`slim.cpp` lines 880-899): input copies, `proximal_p`, the
per-element areas `M = doublearea(V,F)/2`, `mesh_area = M.sum()`,
`mesh_improvement_3d = false` and `exp_factor = 1.0`.  `da` is the external
`igl::doublearea`. -/
noncomputable def slimPrecomputeAssigns (da : (ℕ → ℕ → ℝ) → (ℕ → ℕ → ℕ) → ℕ → ℝ)
    (V : ℕ → ℕ → ℝ) (F : ℕ → ℕ → ℕ) (F_cols v_num f_num : ℕ)
    (V_init : ℕ → ℕ → ℝ) (k : SLIMEnergy) (b : ℕ → ℕ) (b_rows : ℕ)
    (bc : ℕ → ℕ → ℝ) (soft_p : ℝ) (data : SLIMData) : SLIMData :=
  let d1 := { data with
    V := V
    F := F
    F_cols := F_cols
    V_o := V_init
    v_num := v_num
    f_num := f_num
    slim_energy := k
    b := b
    b_rows := b_rows
    bc := bc
    soft_const_p := soft_p
    proximal_p := 0.0001 }
  let d2 := { d1 with M := fun e => da V F e / 2 }
  { d2 with
    mesh_area := ∑ e ∈ Finset.range f_num, d2.M e
    mesh_improvement_3d := false
    exp_factor := 1.0 }

/-- `WeightedGlobalLocal::pre_calc` (`slim.cpp` lines 453-510), parametrized
by the external gradient-operator builders: `grad2` abstracts
`igl::local_basis` + `compute_surface_gradient_matrix`, `grad3` abstracts
`igl::grad` (with the `mesh_improvement_3d` flag) and the three slicings.
Buffer resizes have no content in this embedding; the flattened weight vector
is filled by the double loop `wglMOf`. -/
def preCalc
    (grad2 : (ℕ → ℕ → ℝ) → (ℕ → ℕ → ℕ) → ((ℕ → ℕ → ℝ) × (ℕ → ℕ → ℝ)))
    (grad3 : (ℕ → ℕ → ℝ) → (ℕ → ℕ → ℕ) → Bool →
      ((ℕ → ℕ → ℝ) × (ℕ → ℕ → ℝ) × (ℕ → ℕ → ℝ)))
    (s : SLIMData) : SLIMData :=
  if s.has_pre_calc then s
  else
    let s1 := { s with v_n := s.v_num, f_n := s.f_num }
    let s2 :=
      if s1.F_cols = 3 then
        let g := grad2 s1.V s1.F
        { s1 with dim := 2, Dx := g.1, Dy := g.2 }
      else
        let g := grad3 s1.V s1.F s1.mesh_improvement_3d
        { s1 with dim := 3, Dx := g.1, Dy := g.2.1, Dz := g.2.2 }
    { s2 with
      WGL_M := wglMOf s2.dim s2.f_n s2.M s2.WGL_M,
      first_solve := true,
      has_pre_calc := true }

/-- `slim_precompute` up to (and including) `pre_calc`. -/
noncomputable def slimPrecomputeSetup (da : (ℕ → ℕ → ℝ) → (ℕ → ℕ → ℕ) → ℕ → ℝ)
    (grad2 : (ℕ → ℕ → ℝ) → (ℕ → ℕ → ℕ) → ((ℕ → ℕ → ℝ) × (ℕ → ℕ → ℝ)))
    (grad3 : (ℕ → ℕ → ℝ) → (ℕ → ℕ → ℕ) → Bool →
      ((ℕ → ℕ → ℝ) × (ℕ → ℕ → ℝ) × (ℕ → ℕ → ℝ)))
    (V : ℕ → ℕ → ℝ) (F : ℕ → ℕ → ℕ) (F_cols v_num f_num : ℕ)
    (V_init : ℕ → ℕ → ℝ) (k : SLIMEnergy) (b : ℕ → ℕ) (b_rows : ℕ)
    (bc : ℕ → ℕ → ℝ) (soft_p : ℝ) (data : SLIMData) : SLIMData :=
  preCalc grad2 grad3
    (slimPrecomputeAssigns da V F F_cols v_num f_num V_init k b b_rows bc
      soft_p data)

/-- `igl::slim_precompute` in full: assignments, `pre_calc`, then
`data.energy = compute_energy(data.V_o) / data.mesh_area` (which also updates
`Ji`). -/
noncomputable def slimPrecompute (da : (ℕ → ℕ → ℝ) → (ℕ → ℕ → ℕ) → ℕ → ℝ)
    (grad2 : (ℕ → ℕ → ℝ) → (ℕ → ℕ → ℕ) → ((ℕ → ℕ → ℝ) × (ℕ → ℕ → ℝ)))
    (grad3 : (ℕ → ℕ → ℝ) → (ℕ → ℕ → ℕ) → Bool →
      ((ℕ → ℕ → ℝ) × (ℕ → ℕ → ℝ) × (ℕ → ℕ → ℝ)))
    (sing2 : ℝ → ℝ → ℝ → ℝ → ℝ × ℝ)
    (sing3 : ℝ → ℝ → ℝ → ℝ → ℝ → ℝ → ℝ → ℝ → ℝ → ℝ × ℝ × ℝ)
    (V : ℕ → ℕ → ℝ) (F : ℕ → ℕ → ℕ) (F_cols v_num f_num : ℕ)
    (V_init : ℕ → ℕ → ℝ) (k : SLIMEnergy) (b : ℕ → ℕ) (b_rows : ℕ)
    (bc : ℕ → ℕ → ℝ) (soft_p : ℝ) (data : SLIMData) : SLIMData :=
  let d := slimPrecomputeSetup da grad2 grad3 V F F_cols v_num f_num V_init k
    b b_rows bc soft_p data
  let r := computeEnergy sing2 sing3 d d.V_o
  { r.2 with energy := r.1 / d.mesh_area }

/-- `igl::slim_precompute` with the `assert (F.cols() == 3 || F.cols() == 4)`
of `slim.cpp` line 901 made explicit at its position in the control flow: the
assignments up to `exp_factor` (including the per-element area computation)
happen first, the arity check runs next, and only then are the solver
precomputation and the initial energy evaluated. -/
noncomputable def slimPrecomputeChecked
    (da : (ℕ → ℕ → ℝ) → (ℕ → ℕ → ℕ) → ℕ → ℝ)
    (grad2 : (ℕ → ℕ → ℝ) → (ℕ → ℕ → ℕ) → ((ℕ → ℕ → ℝ) × (ℕ → ℕ → ℝ)))
    (grad3 : (ℕ → ℕ → ℝ) → (ℕ → ℕ → ℕ) → Bool →
      ((ℕ → ℕ → ℝ) × (ℕ → ℕ → ℝ) × (ℕ → ℕ → ℝ)))
    (sing2 : ℝ → ℝ → ℝ → ℝ → ℝ × ℝ)
    (sing3 : ℝ → ℝ → ℝ → ℝ → ℝ → ℝ → ℝ → ℝ → ℝ → ℝ × ℝ × ℝ)
    (V : ℕ → ℕ → ℝ) (F : ℕ → ℕ → ℕ) (F_cols v_num f_num : ℕ)
    (V_init : ℕ → ℕ → ℝ) (k : SLIMEnergy) (b : ℕ → ℕ) (b_rows : ℕ)
    (bc : ℕ → ℕ → ℝ) (soft_p : ℝ) (data : SLIMData) :
    Except String SLIMData :=
  let d := slimPrecomputeAssigns da V F F_cols v_num f_num V_init k b b_rows
    bc soft_p data
  if F_cols = 3 ∨ F_cols = 4 then
    let d2 := preCalc grad2 grad3 d
    let r := computeEnergy sing2 sing3 d2 d2.V_o
    Except.ok { r.2 with energy := r.1 / d2.mesh_area }
  else
    Except.error "assertion failed: F.cols() == 3 or F.cols() == 4"

/-- All-zero index matrix (an `F` whose entries are vertex 0). -/
def zeroIdx2 : ℕ → ℕ → ℕ := fun _ _ => 0

/-- External `doublearea` returning 3 for every element. -/
def daC9 : (ℕ → ℕ → ℝ) → (ℕ → ℕ → ℕ) → ℕ → ℝ := fun _ _ _ => 3

/-- Trivial external surface-gradient builder. -/
def grad2C9 : (ℕ → ℕ → ℝ) → (ℕ → ℕ → ℕ) → ((ℕ → ℕ → ℝ) × (ℕ → ℕ → ℝ)) :=
  fun _ _ => (zeroMat, zeroMat)

/-- Trivial external volume-gradient builder. -/
def grad3C9 : (ℕ → ℕ → ℝ) → (ℕ → ℕ → ℕ) → Bool →
    ((ℕ → ℕ → ℝ) × (ℕ → ℕ → ℝ) × (ℕ → ℕ → ℝ)) :=
  fun _ _ _ => (zeroMat, zeroMat, zeroMat)

/-! ## Supporting lemmas -/

/-- `(U * diag w * Uᵗ)ᵗ = U * diag w * Uᵗ`. -/
lemma sandwich_symm {n : ℕ} (U : Matrix (Fin n) (Fin n) ℝ) (w : Fin n → ℝ) :
    (U * Matrix.diagonal w * U.transpose).transpose
      = U * Matrix.diagonal w * U.transpose := by
  rw [Matrix.transpose_mul, Matrix.transpose_mul, Matrix.transpose_transpose,
    Matrix.diagonal_transpose, Matrix.mul_assoc]

/-- Entrywise symmetry of `U * diag w * Uᵗ`. -/
lemma sandwich_symm_apply {n : ℕ} (U : Matrix (Fin n) (Fin n) ℝ) (w : Fin n → ℝ)
    (i j : Fin n) :
    (U * Matrix.diagonal w * U.transpose) i j
      = (U * Matrix.diagonal w * U.transpose) j i := by
  conv_lhs => rw [← sandwich_symm U w]
  exact Matrix.transpose_apply _ i j

lemma innerWrite_succ (u : ℝ → ℝ → ℝ) (n : ℕ) (key : ℕ → ℕ) (val : ℕ → ℝ)
    (f : ℕ → ℝ) :
    innerWrite u (n + 1) key val f
      = Function.update (innerWrite u n key val f) (key n)
          (u (innerWrite u n key val f (key n)) (val n)) := by
  unfold innerWrite
  rw [List.range_succ, List.foldl_append]
  rfl

lemma gridWrite_succ (u : ℝ → ℝ → ℝ) (m n : ℕ) (key : ℕ → ℕ → ℕ)
    (val : ℕ → ℕ → ℝ) (f : ℕ → ℝ) :
    gridWrite u (m + 1) n key val f
      = innerWrite u n (key m) (val m) (gridWrite u m n key val f) := by
  unfold gridWrite
  rw [List.range_succ, List.foldl_append]
  rfl

lemma innerWrite_not_mem (u : ℝ → ℝ → ℝ) (n : ℕ) (key : ℕ → ℕ) (val : ℕ → ℝ)
    (f : ℕ → ℝ) (x : ℕ) (h : ∀ a, a < n → key a ≠ x) :
    innerWrite u n key val f x = f x := by
  induction n with
  | zero => rfl
  | succ n ih =>
    rw [innerWrite_succ, Function.update_apply,
      if_neg (fun hx => h n (Nat.lt_succ_self n) hx.symm)]
    exact ih (fun a ha => h a (Nat.lt_succ_of_lt ha))

lemma innerWrite_eq (u : ℝ → ℝ → ℝ) (n : ℕ) (key : ℕ → ℕ) (val : ℕ → ℝ)
    (f : ℕ → ℝ) (a : ℕ) (ha : a < n)
    (hinj : ∀ a1 a2, a1 < n → a2 < n → key a1 = key a2 → a1 = a2) :
    innerWrite u n key val f (key a) = u (f (key a)) (val a) := by
  induction n with
  | zero => omega
  | succ n ih =>
    rw [innerWrite_succ, Function.update_apply]
    by_cases hc : a = n
    · subst hc
      rw [if_pos rfl]
      congr 1
      exact innerWrite_not_mem u a key val f (key a)
        (fun a' ha' h' =>
          absurd (hinj a' a (Nat.lt_succ_of_lt ha') (Nat.lt_succ_self a) h')
            (Nat.ne_of_lt ha'))
    · have hne : key a ≠ key n := fun h' =>
        hc (hinj a n ha (Nat.lt_succ_self n) h')
      rw [if_neg hne]
      exact ih (Nat.lt_of_le_of_ne (Nat.lt_succ_iff.mp ha) hc)
        (fun a1 a2 h1 h2 he =>
          hinj a1 a2 (Nat.lt_succ_of_lt h1) (Nat.lt_succ_of_lt h2) he)

lemma gridWrite_not_mem (u : ℝ → ℝ → ℝ) (m n : ℕ) (key : ℕ → ℕ → ℕ)
    (val : ℕ → ℕ → ℝ) (f : ℕ → ℝ) (x : ℕ)
    (h : ∀ d a, d < m → a < n → key d a ≠ x) :
    gridWrite u m n key val f x = f x := by
  induction m with
  | zero => rfl
  | succ m ih =>
    rw [gridWrite_succ,
      innerWrite_not_mem u n (key m) (val m) _ x
        (fun a ha => h m a (Nat.lt_succ_self m) ha)]
    exact ih (fun d a hd ha => h d a (Nat.lt_succ_of_lt hd) ha)

lemma gridWrite_eq (u : ℝ → ℝ → ℝ) (m n : ℕ) (key : ℕ → ℕ → ℕ)
    (val : ℕ → ℕ → ℝ) (f : ℕ → ℝ) (d a : ℕ) (hd : d < m) (ha : a < n)
    (hdisj : ∀ d1 a1 d2 a2, d1 < m → a1 < n → d2 < m → a2 < n →
      key d1 a1 = key d2 a2 → d1 = d2 ∧ a1 = a2) :
    gridWrite u m n key val f (key d a) = u (f (key d a)) (val d a) := by
  induction m with
  | zero => omega
  | succ m ih =>
    rw [gridWrite_succ]
    by_cases hc : d = m
    · subst hc
      rw [innerWrite_eq u n (key d) (val d) _ a ha
        (fun a1 a2 h1 h2 he =>
          (hdisj d a1 d a2 (Nat.lt_succ_self d) h1 (Nat.lt_succ_self d) h2 he).2)]
      congr 1
      exact gridWrite_not_mem u d n key val f (key d a)
        (fun d' a' hd' ha' he =>
          absurd (hdisj d' a' d a (Nat.lt_succ_of_lt hd') ha'
            (Nat.lt_succ_self d) ha he).1 (Nat.ne_of_lt hd'))
    · have hd' : d < m := Nat.lt_of_le_of_ne (Nat.lt_succ_iff.mp hd) hc
      rw [innerWrite_not_mem u n (key m) (val m) _ (key d a)
        (fun a' ha' he =>
          hc ((hdisj d a m a' (Nat.lt_succ_of_lt hd') ha (Nat.lt_succ_self m)
            ha' he.symm).1))]
      exact ih hd' (fun d1 a1 d2 a2 h1 h2 h3 h4 he =>
        hdisj d1 a1 d2 a2 (Nat.lt_succ_of_lt h1) h2 (Nat.lt_succ_of_lt h3) h4 he)

/-- Keys of the form `d * stride + off` with `off < stride` determine both
components. -/
lemma stride_key_inj (s d1 o1 d2 o2 : ℕ) (h1 : o1 < s) (h2 : o2 < s)
    (h : d1 * s + o1 = d2 * s + o2) : d1 = d2 ∧ o1 = o2 := by
  have c1 : d1 < d2 → d1 * s + s ≤ d2 * s := fun hlt => by
    have h' := Nat.mul_le_mul_right s (Nat.succ_le_of_lt hlt)
    rwa [Nat.succ_mul] at h'
  have c2 : d2 < d1 → d2 * s + s ≤ d1 * s := fun hlt => by
    have h' := Nat.mul_le_mul_right s (Nat.succ_le_of_lt hlt)
    rwa [Nat.succ_mul] at h'
  rcases Nat.lt_trichotomy d1 d2 with hlt | heq | hgt
  · have := c1 hlt; omega
  · subst heq; omega
  · have := c2 hgt; omega

lemma innerDiag_succ (n : ℕ) (key : ℕ → ℕ) (sp : ℝ) (L : ℕ → ℕ → ℝ) :
    innerDiag (n + 1) key sp L
      = fun r c => if r = key n ∧ c = key n then innerDiag n key sp L r c + sp
          else innerDiag n key sp L r c := by
  unfold innerDiag
  rw [List.range_succ, List.foldl_append]
  rfl

/-- The diagonal additions of `add_soft_constraints` touch only the diagonal,
where they behave like the one-dimensional `+=` loop on `fun k => L k k`. -/
lemma innerDiag_apply (n : ℕ) (key : ℕ → ℕ) (sp : ℝ) (L : ℕ → ℕ → ℝ)
    (r c : ℕ) :
    innerDiag n key sp L r c
      = if r = c then
          innerWrite (fun old v => old + v) n key (fun _ => sp)
            (fun kk => L kk kk) r
        else L r c := by
  induction n with
  | zero =>
    by_cases hrc : r = c
    · subst hrc; simp [innerDiag, innerWrite]
    · simp [innerDiag, innerWrite, hrc]
  | succ n ih =>
    simp only [innerDiag_succ]
    by_cases hrc : r = c
    · subst hrc
      by_cases hk : r = key n
      · subst hk
        rw [if_pos ⟨rfl, rfl⟩, if_pos rfl, innerWrite_succ, Function.update_apply,
          if_pos rfl, ih, if_pos rfl]
      · rw [if_neg (fun h => hk h.1), if_pos rfl, innerWrite_succ,
          Function.update_apply, if_neg hk, ih, if_pos rfl]
    · have hcond : ¬(r = key n ∧ c = key n) := fun h => hrc (h.1.trans h.2.symm)
      rw [if_neg hcond, if_neg hrc, ih, if_neg hrc]

lemma addSoftL_apply (dim v_n b_rows : ℕ) (b : ℕ → ℕ) (soft_p : ℝ)
    (L : ℕ → ℕ → ℝ) (r c : ℕ) :
    addSoftL dim v_n b_rows b soft_p L r c
      = if r = c then
          gridWrite (fun old v => old + v) dim b_rows (fun d i => d * v_n + b i)
            (fun _ _ => soft_p) (fun kk => L kk kk) r
        else L r c := by
  induction dim generalizing r c with
  | zero =>
    by_cases hrc : r = c
    · subst hrc; simp [addSoftL, gridWrite]
    · simp [addSoftL, gridWrite, hrc]
  | succ m ih =>
    have hstep : addSoftL (m + 1) v_n b_rows b soft_p L
        = innerDiag b_rows (fun i => m * v_n + b i) soft_p
            (addSoftL m v_n b_rows b soft_p L) := by
      unfold addSoftL
      rw [List.range_succ, List.foldl_append]
      rfl
    rw [hstep, gridWrite_succ, innerDiag_apply]
    have hseed : (fun kk => addSoftL m v_n b_rows b soft_p L kk kk)
        = gridWrite (fun old v => old + v) m b_rows
            (fun d i => d * v_n + b i) (fun _ _ => soft_p)
            (fun kk => L kk kk) := by
      funext kk
      rw [ih kk kk, if_pos rfl]
    by_cases hrc : r = c
    · subst hrc
      rw [if_pos rfl, if_pos rfl, hseed]
    · rw [if_neg hrc, if_neg hrc, ih r c, if_neg hrc]

/-- `compute_jacobians` only replaces the `Ji` field. -/
lemma computeJacobians_eq (s : SLIMData) (uv : ℕ → ℕ → ℝ) :
    computeJacobians s uv = { s with Ji := (computeJacobians s uv).Ji } := by
  by_cases h : s.F_cols = 3 <;> simp [computeJacobians, h]

/-- `pre_calc` never touches `proximal_p`, `exp_factor` or
`mesh_improvement_3d`. -/
lemma preCalc_fields
    (grad2 : (ℕ → ℕ → ℝ) → (ℕ → ℕ → ℕ) → ((ℕ → ℕ → ℝ) × (ℕ → ℕ → ℝ)))
    (grad3 : (ℕ → ℕ → ℝ) → (ℕ → ℕ → ℕ) → Bool →
      ((ℕ → ℕ → ℝ) × (ℕ → ℕ → ℝ) × (ℕ → ℕ → ℝ)))
    (s : SLIMData) :
    (preCalc grad2 grad3 s).proximal_p = s.proximal_p ∧
    (preCalc grad2 grad3 s).exp_factor = s.exp_factor ∧
    (preCalc grad2 grad3 s).mesh_improvement_3d = s.mesh_improvement_3d := by
  unfold preCalc
  by_cases h1 : s.has_pre_calc
  · simp [h1]
  · by_cases h2 : s.F_cols = 3 <;> simp [h1, h2]

/-- `compute_energy` never touches `proximal_p`, `exp_factor` or
`mesh_improvement_3d`. -/
lemma computeEnergy_state_fields (sing2 : ℝ → ℝ → ℝ → ℝ → ℝ × ℝ)
    (sing3 : ℝ → ℝ → ℝ → ℝ → ℝ → ℝ → ℝ → ℝ → ℝ → ℝ × ℝ × ℝ)
    (s : SLIMData) (uv : ℕ → ℕ → ℝ) :
    (computeEnergy sing2 sing3 s uv).2.proximal_p = s.proximal_p ∧
    (computeEnergy sing2 sing3 s uv).2.exp_factor = s.exp_factor ∧
    (computeEnergy sing2 sing3 s uv).2.mesh_improvement_3d
      = s.mesh_improvement_3d := by
  refine ⟨?_, ?_, ?_⟩ <;>
    rw [show (computeEnergy sing2 sing3 s uv).2 = computeJacobians s uv from rfl,
      computeJacobians_eq s uv]

/-! ## The claims -/

/-- C1 counterexample: for the `CONFORMAL` energy, an element of area 1 with
both singular values exactly 1 has per-element energy 1, not 0. -/
theorem c1_counterexample : elemEnergy2D .CONFORMAL 1 1 1 1 ≠ 0 := by
  norm_num [elemEnergy2D]

/-- C1 (amended): at singular values all exactly 1, the per-element energy of
`compute_energy_with_jacobians` is 0 for the `ARAP` and `LOG_ARAP` kinds, but
equals the (positive, for positive area) minimum of the energy for the other
four kinds: `4·area` / `6·area` for `SYMMETRIC_DIRICHLET`,
`area·exp(4·exp_factor)` / `area·exp(6·exp_factor)` for
`EXP_SYMMETRIC_DIRICHLET`, `area` for `CONFORMAL`, and `area·exp(exp_factor)`
(2-D) resp. `area·exp(1)` (3-D) for `EXP_CONFORMAL`. -/
theorem c1_energy_at_identity (a ef : ℝ) :
    elemEnergy2D .ARAP ef a 1 1 = 0 ∧
    elemEnergy2D .LOG_ARAP ef a 1 1 = 0 ∧
    elemEnergy2D .SYMMETRIC_DIRICHLET ef a 1 1 = a * 4 ∧
    elemEnergy2D .EXP_SYMMETRIC_DIRICHLET ef a 1 1 = a * Real.exp (ef * 4) ∧
    elemEnergy2D .CONFORMAL ef a 1 1 = a ∧
    elemEnergy2D .EXP_CONFORMAL ef a 1 1 = a * Real.exp ef ∧
    elemEnergy3D .ARAP ef a 1 1 1 = 0 ∧
    elemEnergy3D .LOG_ARAP ef a 1 1 1 = 0 ∧
    elemEnergy3D .SYMMETRIC_DIRICHLET ef a 1 1 1 = a * 6 ∧
    elemEnergy3D .EXP_SYMMETRIC_DIRICHLET ef a 1 1 1 = a * Real.exp (ef * 6) ∧
    elemEnergy3D .CONFORMAL ef a 1 1 1 = a ∧
    elemEnergy3D .EXP_CONFORMAL ef a 1 1 1 = a * Real.exp 1 := by
  refine ⟨?_, ?_, ?_, ?_, ?_, ?_, ?_, ?_, ?_, ?_, ?_, ?_⟩ <;>
    norm_num [elemEnergy2D, elemEnergy3D, Real.log_one, Real.one_rpow]

/-- C2 counterexample: at `U = V = I`, `s1 = s2 = 4`, the 2-D `EXP_CONFORMAL`
branch leaves the stored local matrix equal to the incoming polar factor
(here the identity), whereas the spec's words say it is rebuilt as
`U·diag(sqrt(s1·s2))·Vᵗ = diag(4,4)`. -/
theorem c2_counterexample :
    riNew2D .EXP_CONFORMAL 1 1 1 4 4 ≠ specRiExpConformal2D 1 1 4 4 := by
  intro h
  have h00 := congrFun (congrFun h 0) 0
  have h4 : Real.sqrt ((4 : ℝ) * 4) = 4 := by
    rw [show (4 : ℝ) * 4 = 4 ^ 2 by norm_num]
    exact Real.sqrt_sq (by norm_num)
  simp [riNew2D, specRiExpConformal2D, Matrix.one_apply, Matrix.diagonal, h4] at h00

/-- C2 (amended): in the 2-D `EXP_CONFORMAL` branch the per-singular-value
gradient is the *symmetric-Dirichlet* base gradient `2(s_k − s_k⁻³)` (not the
conformal partial derivative) multiplied by `exp(sharpness·conformal-energy) ·
sharpness`; the reweighting divisors keep the rigid target 1 (the geometric
mean is computed but unused), and the local matrix `R` is left equal to the
polar factor — unlike the non-exponential `CONFORMAL` branch, which does
rebuild `R = U·diag(sqrt(s1·s2))·Vᵗ`. -/
theorem c2_exp_conformal_branch (ef s1 s2 : ℝ)
    (ri ui vi : Matrix (Fin 2) (Fin 2) ℝ) :
    msingNewPre2D .EXP_CONFORMAL ef s1 s2 =
      (Real.sqrt ((2 * (s1 - (s1 ^ 3)⁻¹) *
          (Real.exp (ef * ((s1 ^ 2 + s2 ^ 2) / (2 * s1 * s2))) * ef)) /
          (2 * (s1 - 1))),
       Real.sqrt ((2 * (s2 - (s2 ^ 3)⁻¹) *
          (Real.exp (ef * ((s1 ^ 2 + s2 ^ 2) / (2 * s1 * s2))) * ef)) /
          (2 * (s2 - 1)))) ∧
    riNew2D .EXP_CONFORMAL ri ui vi s1 s2 = ri ∧
    riNew2D .CONFORMAL ri ui vi s1 s2 =
      ui * Matrix.diagonal ![Real.sqrt (s1 * s2), Real.sqrt (s1 * s2)] *
        vi.transpose := by
  exact ⟨rfl, rfl, rfl⟩

/-- C3 counterexample: with sharpness `exp_factor = 2` and singular values all
1, the 3-D `EXP_CONFORMAL` per-element energy is `exp 1`, not
`exp(2 · inner-energy) = exp 2`: the 3-D branch omits the sharpness factor. -/
theorem c3_counterexample :
    elemEnergy3D .EXP_CONFORMAL 2 1 1 1 1 ≠
      1 * Real.exp (2 * elemEnergy3D .CONFORMAL 2 1 1 1 1) := by
  norm_num [elemEnergy3D, Real.one_rpow, Real.exp_eq_exp]

/-- C3 (amended): the direct per-element energy of the exponential variants is
`area · exp(sharpness · inner-energy)` — the inner energy being the
non-exponential variant's value at unit area — for 2-D
`EXP_SYMMETRIC_DIRICHLET`, 2-D `EXP_CONFORMAL` and 3-D
`EXP_SYMMETRIC_DIRICHLET`; the 3-D `EXP_CONFORMAL` branch instead computes
`area · exp(inner-energy)` with the sharpness factor omitted. -/
theorem c3_exp_energy_form (ef a s1 s2 s3 : ℝ) :
    elemEnergy2D .EXP_SYMMETRIC_DIRICHLET ef a s1 s2 =
      a * Real.exp (ef * elemEnergy2D .SYMMETRIC_DIRICHLET ef 1 s1 s2) ∧
    elemEnergy2D .EXP_CONFORMAL ef a s1 s2 =
      a * Real.exp (ef * elemEnergy2D .CONFORMAL ef 1 s1 s2) ∧
    elemEnergy3D .EXP_SYMMETRIC_DIRICHLET ef a s1 s2 s3 =
      a * Real.exp (ef * elemEnergy3D .SYMMETRIC_DIRICHLET ef 1 s1 s2 s3) ∧
    elemEnergy3D .EXP_CONFORMAL ef a s1 s2 s3 =
      a * Real.exp (elemEnergy3D .CONFORMAL ef 1 s1 s2 s3) := by
  refine ⟨?_, ?_, ?_, ?_⟩ <;> simp [elemEnergy2D, elemEnergy3D]

/-- C4: on a 3-D problem the code does pick the conjugate-gradient path with
tolerance `1e-8`, but the seed is not the flattened candidate positions: with
4 vertices, entry 1 of the guess is `uv(0,1)` where the flattened `uv` has
`uv(1,0)`, and entry 3 is never written at all (the inner loop runs only to
`dim`, not to `uv.rows()`). -/
theorem c4_warm_start_bug :
    chooseSolveMethod 3 4 uvC4 zeroFun
      = SolveMethod.cg 1e-8 (cgGuess 4 3 uvC4 zeroFun) ∧
    cgGuess 4 3 uvC4 zeroFun 1 = 10 ∧
    flattenPositions 4 uvC4 1 = 1 ∧
    cgGuess 4 3 uvC4 zeroFun 3 = 0 ∧
    flattenPositions 4 uvC4 3 = 3 := by
  refine ⟨by norm_num [chooseSolveMethod], ?_, ?_, ?_, ?_⟩ <;>
    norm_num [cgGuess, flattenPositions, gridWrite, innerWrite, List.range_succ,
      Function.update_apply, uvC4, zeroFun]

/-- C5 counterexample: evaluating the energy at `uvC5` changes the state —
`Ji(0,0)` becomes `Dx·u = 1` where it was 0 — so `compute_energy` does not
leave every field of the solver state unchanged. -/
theorem c5_counterexample :
    (computeEnergy sing2C5 sing3C5 dataC5 uvC5).2 ≠ dataC5 := by
  intro h
  have hJ := congrArg SLIMData.Ji h
  have h00 := congrFun (congrFun hJ 0) 0
  simp [computeEnergy, computeJacobians, dataC5, uvC5, mvRow,
    Finset.sum_range_one] at h00

/-- C5 (amended): `compute_energy` is deterministic in the candidate positions
and the read fields, and mutates exactly one field of the solver state: `Ji`
is overwritten with the candidate's Jacobians, every other field being left
unchanged; its value is the Jacobian energy of the updated state plus the
soft-constraint penalty. -/
theorem c5_energy_frame (sing2 : ℝ → ℝ → ℝ → ℝ → ℝ × ℝ)
    (sing3 : ℝ → ℝ → ℝ → ℝ → ℝ → ℝ → ℝ → ℝ → ℝ → ℝ × ℝ × ℝ)
    (s : SLIMData) (uv : ℕ → ℕ → ℝ) :
    (computeEnergy sing2 sing3 s uv).2
      = { s with Ji := (computeJacobians s uv).Ji } ∧
    (computeEnergy sing2 sing3 s uv).1
      = computeEnergyWithJacobians sing2 sing3 (computeJacobians s uv)
        + computeSoftConstEnergy (computeJacobians s uv) uv := by
  exact ⟨computeJacobians_eq s uv, rfl⟩

/-- C6: in both the 2-D and the 3-D branch, for every energy kind, whenever a
singular value is within `1e-8` of 1 the corresponding reweighted singular
value actually used to build `mat_W` is exactly 1. -/
theorem c6_guard_clamps (k : SLIMEnergy) (ef s1 s2 s3 : ℝ) :
    (|s1 - 1| < 1e-8 → (msingNew2D k ef s1 s2).1 = 1) ∧
    (|s2 - 1| < 1e-8 → (msingNew2D k ef s1 s2).2 = 1) ∧
    (|s1 - 1| < 1e-8 → (msingNew3D k ef s1 s2 s3).1 = 1) ∧
    (|s2 - 1| < 1e-8 → (msingNew3D k ef s1 s2 s3).2.1 = 1) ∧
    (|s3 - 1| < 1e-8 → (msingNew3D k ef s1 s2 s3).2.2 = 1) := by
  refine ⟨fun h => ?_, fun h => ?_, fun h => ?_, fun h => ?_, fun h => ?_⟩ <;>
    simp [msingNew2D, msingNew3D, h]

/-- Witness for C6 at `s = 1` and the `ARAP` kind. -/
theorem c6_guard_clamps_witness :
    |(1 : ℝ) - 1| < 1e-8 ∧ (msingNew2D .ARAP 0 1 1).1 = 1 :=
  ⟨by norm_num, (c6_guard_clamps .ARAP 0 1 1 1).1 (by norm_num)⟩

/-- C7: the weight matrix `mat_W = U·diag(m_sing_new)·Uᵗ` written into the
`W_..` fields by the local step is symmetric — `W_12 = W_21` in 2-D and
`W_12 = W_21`, `W_13 = W_31`, `W_23 = W_32` in 3-D — for every energy kind,
every sharpness, every SVD basis and all singular values. -/
theorem c7_weight_matrix_symmetric (k : SLIMEnergy) (ef s1 s2 s3 : ℝ)
    (u2 : Matrix (Fin 2) (Fin 2) ℝ) (u3 : Matrix (Fin 3) (Fin 3) ℝ) :
    localW2D k ef u2 s1 s2 0 1 = localW2D k ef u2 s1 s2 1 0 ∧
    localW3D k ef u3 s1 s2 s3 0 1 = localW3D k ef u3 s1 s2 s3 1 0 ∧
    localW3D k ef u3 s1 s2 s3 0 2 = localW3D k ef u3 s1 s2 s3 2 0 ∧
    localW3D k ef u3 s1 s2 s3 1 2 = localW3D k ef u3 s1 s2 s3 2 1 := by
  refine ⟨?_, ?_, ?_, ?_⟩ <;>
    simp only [localW2D, localW3D] <;> exact sandwich_symm_apply _ _ _ _

/-- C8: the global matrix before soft constraints is
`Aᵗ·diag(weight_vector)·A + proximal_p·I` with `weight_vector` replicating the
per-element weights `M` across all `dim²` output blocks, and
`add_soft_constraints` then adds exactly `soft_p` to the diagonal entry
`d·v_n + b(i)` of `L` and `soft_p·bc(i,d)` to the same entry of the right-hand
side, for every pinned vertex `b(i)` and axis `d`, leaving all off-diagonal
entries unchanged. -/
theorem c8_global_system (rows dim v_num f_n b_rows : ℕ) (A : ℕ → ℕ → ℝ)
    (M w0 rhs0 : ℕ → ℝ) (b : ℕ → ℕ) (bc : ℕ → ℕ → ℝ) (proximal_p soft_p : ℝ)
    (d i : ℕ) (hd : d < dim) (hi : i < b_rows)
    (hblt : ∀ i2, i2 < b_rows → b i2 < v_num)
    (hbinj : ∀ i1 i2, i1 < b_rows → i2 < b_rows → b i1 = b i2 → i1 = i2) :
    (∀ i2 j2, i2 < dim * dim → j2 < f_n →
      wglMOf dim f_n M w0 (i2 * f_n + j2) = M j2) ∧
    addSoftL dim v_num b_rows b soft_p
        (buildL rows A (wglMOf dim f_n M w0) proximal_p)
        (d * v_num + b i) (d * v_num + b i)
      = buildL rows A (wglMOf dim f_n M w0) proximal_p
          (d * v_num + b i) (d * v_num + b i) + soft_p ∧
    (∀ r c, r ≠ c →
      addSoftL dim v_num b_rows b soft_p
          (buildL rows A (wglMOf dim f_n M w0) proximal_p) r c
        = buildL rows A (wglMOf dim f_n M w0) proximal_p r c) ∧
    addSoftRhs dim v_num b_rows b bc soft_p rhs0 (d * v_num + b i)
      = rhs0 (d * v_num + b i) + soft_p * bc i d := by
  have hdisj : ∀ d1 a1 d2 a2, d1 < dim → a1 < b_rows → d2 < dim →
      a2 < b_rows → d1 * v_num + b a1 = d2 * v_num + b a2 → d1 = d2 ∧ a1 = a2 := by
    intro d1 a1 d2 a2 h1 h2 h3 h4 he
    have hk := stride_key_inj v_num d1 (b a1) d2 (b a2) (hblt a1 h2) (hblt a2 h4) he
    exact ⟨hk.1, hbinj a1 a2 h2 h4 hk.2⟩
  refine ⟨?_, ?_, ?_, ?_⟩
  · intro i2 j2 h2 hj2
    exact gridWrite_eq (fun _ v => v) (dim * dim) f_n (fun i3 j3 => i3 * f_n + j3)
      (fun _ j3 => M j3) w0 i2 j2 h2 hj2
      (fun d1 a1 d2 a2 _ hb1 _ hb2 he =>
        stride_key_inj f_n d1 a1 d2 a2 hb1 hb2 he)
  · rw [addSoftL_apply, if_pos rfl]
    exact gridWrite_eq (fun old v => old + v) dim b_rows
      (fun d2 i2 => d2 * v_num + b i2) (fun _ _ => soft_p) _ d i hd hi hdisj
  · intro r c hrc
    rw [addSoftL_apply, if_neg hrc]
  · exact gridWrite_eq (fun old v => old + v) dim b_rows
      (fun d2 i2 => d2 * v_num + b i2) (fun d2 i2 => soft_p * bc i2 d2)
      rhs0 d i hd hi hdisj

/-- Witness for C8 on a one-vertex, one-element, one-constraint instance. -/
theorem c8_global_system_witness :
    ((0 : ℕ) < 2 ∧ (0 : ℕ) < 1) ∧
    ((∀ i2 j2, i2 < 2 * 2 → j2 < 1 →
      wglMOf 2 1 oneFun zeroFun (i2 * 1 + j2) = oneFun j2) ∧
    addSoftL 2 1 1 zeroIdx 1 (buildL 1 zeroMat (wglMOf 2 1 oneFun zeroFun) 1)
        (0 * 1 + zeroIdx 0) (0 * 1 + zeroIdx 0)
      = buildL 1 zeroMat (wglMOf 2 1 oneFun zeroFun) 1
          (0 * 1 + zeroIdx 0) (0 * 1 + zeroIdx 0) + 1 ∧
    (∀ r c, r ≠ c →
      addSoftL 2 1 1 zeroIdx 1 (buildL 1 zeroMat (wglMOf 2 1 oneFun zeroFun) 1) r c
        = buildL 1 zeroMat (wglMOf 2 1 oneFun zeroFun) 1 r c) ∧
    addSoftRhs 2 1 1 zeroIdx oneMat2 1 zeroFun (0 * 1 + zeroIdx 0)
      = zeroFun (0 * 1 + zeroIdx 0) + 1 * oneMat2 0 0) :=
  ⟨⟨by norm_num, by norm_num⟩,
   c8_global_system 1 2 1 1 1 zeroMat oneFun zeroFun zeroFun zeroIdx oneMat2 1 1
     0 0 (by norm_num) (by norm_num)
     (fun i2 h => by simp [zeroIdx])
     (fun i1 i2 h1 h2 _ => by omega)⟩

/-- C9 counterexample: feeding elements with 5 vertices each is rejected
(fatally), but at the moment the arity assertion fires the per-element areas
`M` have already been computed — `M 0` has been overwritten from its initial
value 1 to `doublearea/2 = 3/2` — so the error is not reported before any
per-element computation starts. -/
theorem c9_counterexample :
    slimPrecomputeChecked daC9 grad2C9 grad3C9 sing2C5 sing3C5 zeroMat zeroIdx2
        5 1 1 zeroMat .ARAP zeroIdx 0 zeroMat 0 dataC5
      = Except.error "assertion failed: F.cols() == 3 or F.cols() == 4" ∧
    (slimPrecomputeAssigns daC9 zeroMat zeroIdx2 5 1 1 zeroMat .ARAP zeroIdx 0
        zeroMat 0 dataC5).M 0
      ≠ dataC5.M 0 := by
  constructor
  · norm_num [slimPrecomputeChecked]
  · norm_num [slimPrecomputeAssigns, daC9, dataC5]

/-- C9 (amended): element arities other than 3 and 4 are rejected fatally by
the assertion in `slim_precompute`, but only after the inputs have been copied
and the per-element areas `M = doublearea(V,F)/2` (and the total mesh area)
have been computed; the solver precomputation and the initial energy are not
reached. -/
theorem c9_arity_check (da : (ℕ → ℕ → ℝ) → (ℕ → ℕ → ℕ) → ℕ → ℝ)
    (grad2 : (ℕ → ℕ → ℝ) → (ℕ → ℕ → ℕ) → ((ℕ → ℕ → ℝ) × (ℕ → ℕ → ℝ)))
    (grad3 : (ℕ → ℕ → ℝ) → (ℕ → ℕ → ℕ) → Bool →
      ((ℕ → ℕ → ℝ) × (ℕ → ℕ → ℝ) × (ℕ → ℕ → ℝ)))
    (sing2 : ℝ → ℝ → ℝ → ℝ → ℝ × ℝ)
    (sing3 : ℝ → ℝ → ℝ → ℝ → ℝ → ℝ → ℝ → ℝ → ℝ → ℝ × ℝ × ℝ)
    (V : ℕ → ℕ → ℝ) (F : ℕ → ℕ → ℕ) (F_cols v_num f_num : ℕ)
    (V_init : ℕ → ℕ → ℝ) (k : SLIMEnergy) (b : ℕ → ℕ) (b_rows : ℕ)
    (bc : ℕ → ℕ → ℝ) (soft_p : ℝ) (data : SLIMData)
    (h : ¬(F_cols = 3 ∨ F_cols = 4)) :
    slimPrecomputeChecked da grad2 grad3 sing2 sing3 V F F_cols v_num f_num
        V_init k b b_rows bc soft_p data
      = Except.error "assertion failed: F.cols() == 3 or F.cols() == 4" ∧
    (slimPrecomputeAssigns da V F F_cols v_num f_num V_init k b b_rows bc
        soft_p data).M
      = fun e => da V F e / 2 := by
  constructor
  · simp [slimPrecomputeChecked, h]
  · rfl

/-- Witness for C9 at element arity 5. -/
theorem c9_arity_check_witness :
    (¬((5 : ℕ) = 3 ∨ (5 : ℕ) = 4)) ∧
    (slimPrecomputeChecked daC9 grad2C9 grad3C9 sing2C5 sing3C5 zeroMat zeroIdx2
        5 2 1 zeroMat .ARAP zeroIdx 0 zeroMat 0 dataC5
      = Except.error "assertion failed: F.cols() == 3 or F.cols() == 4" ∧
    (slimPrecomputeAssigns daC9 zeroMat zeroIdx2 5 2 1 zeroMat .ARAP zeroIdx 0
        zeroMat 0 dataC5).M
      = fun e => daC9 zeroMat zeroIdx2 e / 2) :=
  ⟨by norm_num,
   c9_arity_check daC9 grad2C9 grad3C9 sing2C5 sing3C5 zeroMat zeroIdx2 5 2 1
     zeroMat .ARAP zeroIdx 0 zeroMat 0 dataC5 (by norm_num)⟩

/-- C10: `slim_precompute` unconditionally overwrites `proximal_p` with
`0.0001`, `exp_factor` with `1.0` and `mesh_improvement_3d` with `false`
after copying its inputs, whatever the caller had stored in `data`; the
initial energy is evaluated on the precomputed state, whose sharpness is
already `1.0`, and normalized by the mesh area. -/
theorem c10_precompute_overrides (da : (ℕ → ℕ → ℝ) → (ℕ → ℕ → ℕ) → ℕ → ℝ)
    (grad2 : (ℕ → ℕ → ℝ) → (ℕ → ℕ → ℕ) → ((ℕ → ℕ → ℝ) × (ℕ → ℕ → ℝ)))
    (grad3 : (ℕ → ℕ → ℝ) → (ℕ → ℕ → ℕ) → Bool →
      ((ℕ → ℕ → ℝ) × (ℕ → ℕ → ℝ) × (ℕ → ℕ → ℝ)))
    (sing2 : ℝ → ℝ → ℝ → ℝ → ℝ × ℝ)
    (sing3 : ℝ → ℝ → ℝ → ℝ → ℝ → ℝ → ℝ → ℝ → ℝ → ℝ × ℝ × ℝ)
    (V : ℕ → ℕ → ℝ) (F : ℕ → ℕ → ℕ) (F_cols v_num f_num : ℕ)
    (V_init : ℕ → ℕ → ℝ) (k : SLIMEnergy) (b : ℕ → ℕ) (b_rows : ℕ)
    (bc : ℕ → ℕ → ℝ) (soft_p : ℝ) (data : SLIMData) :
    (slimPrecompute da grad2 grad3 sing2 sing3 V F F_cols v_num f_num V_init k
        b b_rows bc soft_p data).proximal_p = 0.0001 ∧
    (slimPrecompute da grad2 grad3 sing2 sing3 V F F_cols v_num f_num V_init k
        b b_rows bc soft_p data).exp_factor = 1.0 ∧
    (slimPrecompute da grad2 grad3 sing2 sing3 V F F_cols v_num f_num V_init k
        b b_rows bc soft_p data).mesh_improvement_3d = false ∧
    (slimPrecomputeSetup da grad2 grad3 V F F_cols v_num f_num V_init k b
        b_rows bc soft_p data).exp_factor = 1.0 ∧
    (slimPrecompute da grad2 grad3 sing2 sing3 V F F_cols v_num f_num V_init k
        b b_rows bc soft_p data).energy
      = (computeEnergy sing2 sing3
          (slimPrecomputeSetup da grad2 grad3 V F F_cols v_num f_num V_init k
            b b_rows bc soft_p data)
          (slimPrecomputeSetup da grad2 grad3 V F F_cols v_num f_num V_init k
            b b_rows bc soft_p data).V_o).1
        / (slimPrecomputeSetup da grad2 grad3 V F F_cols v_num f_num V_init k
            b b_rows bc soft_p data).mesh_area := by
  have h1 : (slimPrecomputeAssigns da V F F_cols v_num f_num V_init k b b_rows
      bc soft_p data).proximal_p = 0.0001 := rfl
  have h2 : (slimPrecomputeAssigns da V F F_cols v_num f_num V_init k b b_rows
      bc soft_p data).exp_factor = 1.0 := rfl
  have h3 : (slimPrecomputeAssigns da V F F_cols v_num f_num V_init k b b_rows
      bc soft_p data).mesh_improvement_3d = false := rfl
  have hP := preCalc_fields grad2 grad3
    (slimPrecomputeAssigns da V F F_cols v_num f_num V_init k b b_rows bc
      soft_p data)
  have hE := computeEnergy_state_fields sing2 sing3
    (slimPrecomputeSetup da grad2 grad3 V F F_cols v_num f_num V_init k b
      b_rows bc soft_p data)
    (slimPrecomputeSetup da grad2 grad3 V F F_cols v_num f_num V_init k b
      b_rows bc soft_p data).V_o
  exact ⟨hE.1.trans (hP.1.trans h1), hE.2.1.trans (hP.2.1.trans h2),
    hE.2.2.trans (hP.2.2.trans h3), hP.2.1.trans h2, rfl⟩

end SlimProof
